import Mathlib

/-!
Shallow embedding of the scaffoldkit package-scaffolding core:
the generator data model (`src/types/index.ts`), the base generator
(`src/core/base-generator.ts`), the generator registry
(`src/core/registry.ts`), the React and Node framework generators
(`src/generators/react`, `src/generators/node`) and the package
generation orchestrator (`src/core/generator.ts`), together with
theorems settling the frozen claims about them.
-/

namespace Scaffold

/-! ### Closed enumerations from `src/types/index.ts` -/

/-- `Framework` — the closed union of supported framework tags. -/
inductive Framework
  | react | vue | svelte | angular | solid | qwik | preact
  | lit | astro | node | deno | bun | vanilla
deriving DecidableEq, Repr

/-- The runtime string value of a framework tag. -/
def Framework.str : Framework → String
  | .react => "react" | .vue => "vue" | .svelte => "svelte"
  | .angular => "angular" | .solid => "solid" | .qwik => "qwik"
  | .preact => "preact" | .lit => "lit" | .astro => "astro"
  | .node => "node" | .deno => "deno" | .bun => "bun" | .vanilla => "vanilla"

/-- `PackageType` — package types that can be generated. -/
inductive PackageType
  | library | plugin | utility | cli | sdk | integration | adapter
deriving DecidableEq, Repr

def PackageType.str : PackageType → String
  | .library => "library" | .plugin => "plugin" | .utility => "utility"
  | .cli => "cli" | .sdk => "sdk" | .integration => "integration"
  | .adapter => "adapter"

/-- `RuntimeTarget` — target runtime environments. -/
inductive RuntimeTarget
  | browser | node | edge | universal
deriving DecidableEq, Repr

def RuntimeTarget.str : RuntimeTarget → String
  | .browser => "browser" | .node => "node" | .edge => "edge"
  | .universal => "universal"

/-- `ModuleFormat` — output module format. -/
inductive ModuleFormat
  | esm | cjs | dual
deriving DecidableEq, Repr

/-- `PackageManager` — supported package managers. -/
inductive PackageManager
  | npm | pnpm | yarn | bun
deriving DecidableEq, Repr

/-- `BuildSystem` — build system options. -/
inductive BuildSystem
  | tsup | vite | rollup | unbuild | esbuild
deriving DecidableEq, Repr

/-- `ValidationSeverity` — severity level for validation issues. -/
inductive Severity
  | error | warning | info
deriving DecidableEq, Repr

/-- `DependencySpec.type` — the four dependency kinds. -/
inductive DepType
  | dependency | devDependency | peerDependency | optionalDependency
deriving DecidableEq, Repr

/-! ### JS-object / JS-Map models

`Record<string, unknown>` values and `Map` objects are modelled as
association lists with JavaScript semantics: `mset` updates an existing
key in place and otherwise appends, `mget` looks up the (unique) key,
`mkeys` lists keys in insertion order. -/

/-- A JSON-like value, the image of TS `unknown` values that actually occur. -/
inductive JValue
  | str (s : String)
  | boolean (b : Bool)
  | num (n : Int)
  | arr (xs : List JValue)
  | obj (fields : List (String × JValue))

/-- JS `Map.set` / object-key assignment: replace in place or append. -/
def mset {κ β : Type} [DecidableEq κ] : List (κ × β) → κ → β → List (κ × β)
  | [], k, v => [(k, v)]
  | (k', v') :: rest, k, v =>
      if k' = k then (k, v) :: rest else (k', v') :: mset rest k v

/-- JS `Map.get` / object-key lookup (first occurrence). -/
def mget {κ β : Type} [DecidableEq κ] : List (κ × β) → κ → Option β
  | [], _ => none
  | (k', v') :: rest, k => if k' = k then some v' else mget rest k

/-- JS `Map.delete`: remove the entry for a key. -/
def mdel {κ β : Type} [DecidableEq κ] : List (κ × β) → κ → List (κ × β)
  | [], _ => []
  | (k', v') :: rest, k =>
      if k' = k then rest else (k', v') :: mdel rest k

/-- JS `Map.keys()`: keys in insertion order. -/
def mkeys {κ β : Type} (m : List (κ × β)) : List κ := m.map Prod.fst

/-- A JS object value (`Record<string, unknown>`). -/
abbrev Obj := List (String × JValue)

/-- A `Record<string, string>` (dependency sections, scripts maps). -/
abbrev SMap := List (String × String)

/-- JS object spread `{...a, ...b}`: later keys override earlier ones. -/
def ospread {κ β : Type} [DecidableEq κ] (a b : List (κ × β)) : List (κ × β) :=
  b.foldl (fun acc p => mset acc p.1 p.2) a

/-- Rest-destructuring `const { k: _, ...rest } = m`: drop the key `k`. -/
def oerase {κ β : Type} [DecidableEq κ] (m : List (κ × β)) (k : κ) : List (κ × β) :=
  m.filter (fun p => p.1 ≠ k)

/-- Whether a key is present in an object. -/
def hasKey {κ β : Type} [DecidableEq κ] (m : List (κ × β)) (k : κ) : Bool :=
  (mget m k).isSome

/-! ### Core structures from `src/types/index.ts` -/

/-- `GeneratorMeta` — metadata about a generator plugin. -/
structure GeneratorMeta where
  id : String
  name : String
  framework : Framework
  description : String
  version : String
  supportedPackageTypes : List PackageType
  supportedRuntimeTargets : List RuntimeTarget
  recommendedBuildSystem : BuildSystem
deriving DecidableEq, Repr

/-- `DependencySpec` — (name, version range, dependency kind).
The optional `condition` field of the TS interface is never set by any
generator in the repository and never read by the embedded code paths,
so it is omitted. -/
structure DependencySpec where
  name : String
  version : String
  type : DepType
deriving DecidableEq, Repr

/-- `ExportConfig` — one export entry for the package.json exports field.
The TS field `import` is a Lean keyword, so it is written `«import»`. -/
structure ExportConfig where
  path : String
  types : Option String := none
  «import» : Option String := none
  require : Option String := none
  default : Option String := none
deriving DecidableEq, Repr

/-- `ValidationIssue` — a single validation issue. -/
structure ValidationIssue where
  severity : Severity
  category : String
  message : String
  suggestion : Option String := none
deriving DecidableEq, Repr

/-- `ValidationResult` — result of validation. -/
structure ValidationResult where
  valid : Bool
  issues : List ValidationIssue
deriving DecidableEq, Repr

/-- `GeneratorConfig` — configuration passed to a generator.
Preset-extension flags that no embedded code path reads are omitted. -/
structure GeneratorConfig where
  name : String
  description : String
  packageType : PackageType
  runtimeTarget : RuntimeTarget
  moduleFormat : ModuleFormat
  buildSystem : BuildSystem
  packageManager : PackageManager
  license : String
  author : String
  repository : Option String := none
  outDir : String
  includeExample : Bool := false
deriving DecidableEq, Repr

/-- `GeneratedFile` — a file to be generated. -/
structure GeneratedFile where
  path : String
  template : String
  isTemplate : Bool
  condition : Option (GeneratorConfig → Bool) := none

/-- `GeneratorResult` — result of running a generator. -/
structure GeneratorResult where
  success : Bool
  files : List String
  warnings : List String
  error : Option String := none
  nextSteps : List String
deriving DecidableEq, Repr

/-- JS `String.prototype.trim`: strip leading and trailing whitespace. -/
def jsTrim (s : String) : String :=
  String.mk (((s.data.dropWhile Char.isWhitespace).reverse.dropWhile
    Char.isWhitespace).reverse)

/-! ### Base generator (`src/core/base-generator.ts`)

Every concrete generator in the repository extends `BaseGenerator` and
overrides only `getFrameworkDependencies`, `getFrameworkFiles`,
`getFrameworkPackageJsonExtras`, `validateFrameworkConfig`, and (for the
Node generator only) `getExports` — the latter by calling `super` and
appending entries. A generator is therefore modelled as the base class
parameterised by those override points; `extraExports` models a subclass
`getExports` of the super-call-and-append shape. -/

structure GeneratorSpec where
  meta : GeneratorMeta
  frameworkDependencies : GeneratorConfig → List DependencySpec
  frameworkFiles : GeneratorConfig → List GeneratedFile
  frameworkPackageJsonExtras : GeneratorConfig → Obj
  validateFrameworkConfig : GeneratorConfig → List ValidationIssue := fun _ => []
  extraExports : GeneratorConfig → List ExportConfig := fun _ => []

namespace GeneratorSpec

/-- `BaseGenerator.getCommonDependencies`. -/
def getCommonDependencies (config : GeneratorConfig) : List DependencySpec :=
  let deps : List DependencySpec :=
    [ { name := "typescript", version := "^5.7.0", type := .devDependency },
      { name := "@types/node", version := "^22.0.0", type := .devDependency } ]
  let deps := deps ++
    (match config.buildSystem with
     | .tsup => [⟨"tsup", "^8.3.0", .devDependency⟩]
     | .vite => [⟨"vite", "^6.0.0", .devDependency⟩,
                 ⟨"vite-plugin-dts", "^4.3.0", .devDependency⟩]
     | .rollup => [⟨"rollup", "^4.28.0", .devDependency⟩,
                   ⟨"@rollup/plugin-typescript", "^12.1.0", .devDependency⟩,
                   ⟨"@rollup/plugin-node-resolve", "^16.0.0", .devDependency⟩]
     | .unbuild => [⟨"unbuild", "^3.0.0", .devDependency⟩]
     | .esbuild => [⟨"esbuild", "^0.24.0", .devDependency⟩])
  deps ++ [⟨"vitest", "^2.1.0", .devDependency⟩]

/-- `BaseGenerator.getDependencies`: common ++ framework-specific. -/
def getDependencies (g : GeneratorSpec) (config : GeneratorConfig) :
    List DependencySpec :=
  getCommonDependencies config ++ g.frameworkDependencies config

/-- `BaseGenerator.getExports`: the root entry, with a `require` path
added exactly when the module format is `dual`. -/
def baseGetExports (config : GeneratorConfig) : List ExportConfig :=
  let mainExport : ExportConfig :=
    { path := ".", types := some "./dist/index.d.ts",
      «import» := some "./dist/index.js" }
  let mainExport :=
    if config.moduleFormat = .dual then
      { mainExport with require := some "./dist/index.cjs" }
    else mainExport
  [{ mainExport with default := some "./dist/index.js" }]

/-- Dynamic-dispatch `getExports`: the base entries plus whatever the
subclass override appends after its `super.getExports` call. -/
def getExports (g : GeneratorSpec) (config : GeneratorConfig) : List ExportConfig :=
  baseGetExports config ++ g.extraExports config

/-- `BaseGenerator.getCommonFiles`. -/
def getCommonFiles (config : GeneratorConfig) : List GeneratedFile :=
  let files : List GeneratedFile :=
    [ { path := "tsconfig.json", template := "common/tsconfig.json.hbs", isTemplate := true },
      { path := "README.md", template := "common/README.md.hbs", isTemplate := true },
      { path := "LICENSE", template := "common/LICENSE.hbs", isTemplate := true },
      { path := ".gitignore", template := "common/gitignore.hbs", isTemplate := true },
      { path := ".npmignore", template := "common/npmignore.hbs", isTemplate := true },
      { path := "CHANGELOG.md", template := "common/CHANGELOG.md.hbs", isTemplate := true } ]
  let files := files ++
    (match config.buildSystem with
     | .tsup => [{ path := "tsup.config.ts", template := "common/tsup.config.ts.hbs", isTemplate := true }]
     | .vite => [{ path := "vite.config.ts", template := "common/vite.config.ts.hbs", isTemplate := true }]
     | .rollup => [{ path := "rollup.config.ts", template := "common/rollup.config.ts.hbs", isTemplate := true }]
     | .unbuild => [{ path := "build.config.ts", template := "common/unbuild.config.ts.hbs", isTemplate := true }]
     | .esbuild => [])
  files ++ [{ path := "vitest.config.ts", template := "common/vitest.config.ts.hbs", isTemplate := true }]

/-- `BaseGenerator.getFiles`: common ++ framework-specific. -/
def getFiles (g : GeneratorSpec) (config : GeneratorConfig) : List GeneratedFile :=
  getCommonFiles config ++ g.frameworkFiles config

/-- `BaseGenerator.getCommonPackageJsonExtras`. -/
def getCommonPackageJsonExtras (_config : GeneratorConfig) : Obj :=
  [ ("sideEffects", .boolean false),
    ("files", .arr [.str "dist", .str "README.md", .str "LICENSE", .str "CHANGELOG.md"]) ]

/-- `BaseGenerator.getPackageJsonExtras`: `{...common, ...framework}`. -/
def getPackageJsonExtras (g : GeneratorSpec) (config : GeneratorConfig) : Obj :=
  ospread (getCommonPackageJsonExtras config) (g.frameworkPackageJsonExtras config)

/-- `BaseGenerator.validate`. -/
def validate (g : GeneratorSpec) (config : GeneratorConfig) : ValidationResult :=
  let issues : List ValidationIssue := []
  let issues := issues ++
    (if config.name = "" ∨ jsTrim config.name = "" then
      [{ severity := .error, category := "config",
         message := "Package name is required" }]
     else [])
  let issues := issues ++
    (if ¬ g.meta.supportedPackageTypes.contains config.packageType then
      [{ severity := .error, category := "config",
         message := "Package type \x22" ++ config.packageType.str ++
           "\x22 is not supported by " ++ g.meta.name,
         suggestion := some ("Supported types: " ++
           String.intercalate ", " (g.meta.supportedPackageTypes.map PackageType.str)) }]
     else [])
  let issues := issues ++
    (if ¬ g.meta.supportedRuntimeTargets.contains config.runtimeTarget then
      [{ severity := .error, category := "config",
         message := "Runtime target \x22" ++ config.runtimeTarget.str ++
           "\x22 is not supported by " ++ g.meta.name,
         suggestion := some ("Supported targets: " ++
           String.intercalate ", " (g.meta.supportedRuntimeTargets.map RuntimeTarget.str)) }]
     else [])
  let issues := issues ++
    (if config.outDir = "" ∨ jsTrim config.outDir = "" then
      [{ severity := .error, category := "config",
         message := "Output directory is required" }]
     else [])
  let issues := issues ++ g.validateFrameworkConfig config
  { valid := ¬ issues.any (fun i => i.severity = .error), issues := issues }

end GeneratorSpec

/-! ### Concrete generators (`src/generators/react`, `src/generators/node`) -/

/-- Turn a `Record<string, string>` into an object value. -/
def smapToObj (m : SMap) : Obj := m.map (fun p => (p.1, .str p.2))

/-- Extract a `Record<string, string>` back out of an object value
(the `extras.scripts as Record<string, string>` cast). -/
def jObjToSMap : JValue → SMap
  | .obj fields =>
      fields.filterMap (fun p =>
        match p.2 with
        | .str s => some (p.1, s)
        | _ => none)
  | _ => []

/-- `config.name.replace(/^@[^\x2f]+\x2f/, '')` — strip a scope prefix:
an `@`, at least one non-slash character, then the first slash. -/
def afterFirstSlash : List Char → Option (List Char)
  | [] => none
  | c :: rest => if c = '/' then some rest else afterFirstSlash rest

def packageShortName (name : String) : String :=
  match name.data with
  | '@' :: c :: rest =>
      if c = '/' then name
      else
        match afterFirstSlash (c :: rest) with
        | some tail => String.mk tail
        | none => name
  | _ => name

/-- `ReactGenerator.getFrameworkDependencies`. -/
def reactFrameworkDependencies (_config : GeneratorConfig) : List DependencySpec :=
  [ ⟨"react", "^18.0.0 || ^19.0.0", .peerDependency⟩,
    ⟨"react-dom", "^18.0.0 || ^19.0.0", .peerDependency⟩,
    ⟨"@types/react", "^18.0.0", .devDependency⟩,
    ⟨"@types/react-dom", "^18.0.0", .devDependency⟩,
    ⟨"@testing-library/react", "^16.1.0", .devDependency⟩,
    ⟨"@testing-library/jest-dom", "^6.6.0", .devDependency⟩,
    ⟨"jsdom", "^25.0.0", .devDependency⟩,
    ⟨"eslint", "^9.17.0", .devDependency⟩,
    ⟨"@eslint/js", "^9.17.0", .devDependency⟩,
    ⟨"eslint-plugin-react", "^7.37.0", .devDependency⟩,
    ⟨"eslint-plugin-react-hooks", "^5.1.0", .devDependency⟩,
    ⟨"globals", "^15.0.0", .devDependency⟩,
    ⟨"typescript-eslint", "^8.18.0", .devDependency⟩,
    ⟨"@vitejs/plugin-react", "^4.3.0", .devDependency⟩ ]

/-- `ReactGenerator.getFrameworkFiles`. -/
def reactFrameworkFiles (config : GeneratorConfig) : List GeneratedFile :=
  let files : List GeneratedFile :=
    [ { path := "src/index.ts", template := "react/src/index.ts.hbs", isTemplate := true },
      { path := "src/components/Button/Button.tsx", template := "react/src/components/Button/Button.tsx.hbs", isTemplate := true },
      { path := "src/components/Button/Button.test.tsx", template := "react/src/components/Button/Button.test.tsx.hbs", isTemplate := true },
      { path := "src/components/Button/index.ts", template := "react/src/components/Button/index.ts.hbs", isTemplate := true },
      { path := "src/hooks/useToggle.ts", template := "react/src/hooks/useToggle.ts.hbs", isTemplate := true },
      { path := "src/hooks/useToggle.test.ts", template := "react/src/hooks/useToggle.test.ts.hbs", isTemplate := true },
      { path := "src/hooks/index.ts", template := "react/src/hooks/index.ts.hbs", isTemplate := true },
      { path := "eslint.config.js", template := "react/eslint.config.js.hbs", isTemplate := true },
      { path := "vitest.setup.ts", template := "common/vitest.setup.ts.hbs", isTemplate := true } ]
  if config.includeExample then
    files ++
      [ { path := "example/index.html", template := "react/example/index.html.hbs", isTemplate := true },
        { path := "example/main.tsx", template := "react/example/main.tsx.hbs", isTemplate := true },
        { path := "example/App.tsx", template := "react/example/App.tsx.hbs", isTemplate := true },
        { path := "example/vite.config.ts", template := "react/example/vite.config.ts.hbs", isTemplate := true },
        { path := "example/package.json", template := "react/example/package.json.hbs", isTemplate := true },
        { path := "example/tsconfig.json", template := "react/example/tsconfig.json.hbs", isTemplate := true } ]
  else files

/-- `ReactGenerator.getFrameworkPackageJsonExtras`. -/
def reactFrameworkPackageJsonExtras (config : GeneratorConfig) : Obj :=
  let scripts : SMap :=
    [ ("lint", "eslint src"), ("lint:fix", "eslint src --fix") ]
  let scripts :=
    if config.includeExample then
      mset (mset (mset scripts
        "example:install" "cd example && npm install")
        "example:dev" "cd example && npm run dev")
        "example:prod" "npm run build && cd example && npm run dev:prod"
    else scripts
  [ ("peerDependenciesMeta", .obj [("react-dom", .obj [("optional", .boolean true)])]),
    ("scripts", .obj (smapToObj scripts)) ]

/-- `ReactGenerator.validateFrameworkConfig`. -/
def reactValidateFrameworkConfig (config : GeneratorConfig) : List ValidationIssue :=
  if config.runtimeTarget = .node then
    [{ severity := .warning, category := "config",
       message := "React libraries typically target browser, not Node.js",
       suggestion := some "Consider using \x22browser\x22 or \x22universal\x22 as the runtime target" }]
  else []

/-- `ReactGenerator` with its `meta`. -/
def reactGenerator : GeneratorSpec :=
  { meta :=
      { id := "react-library", name := "React Library", framework := .react,
        description := "Generate a React component library with TypeScript, modern build tools, and JSX support",
        version := "1.0.0",
        supportedPackageTypes := [.library, .utility, .plugin],
        supportedRuntimeTargets := [.browser, .universal],
        recommendedBuildSystem := .tsup },
    frameworkDependencies := reactFrameworkDependencies,
    frameworkFiles := reactFrameworkFiles,
    frameworkPackageJsonExtras := reactFrameworkPackageJsonExtras,
    validateFrameworkConfig := reactValidateFrameworkConfig }

/-- `NodeGenerator.getFrameworkDependencies`. -/
def nodeFrameworkDependencies (config : GeneratorConfig) : List DependencySpec :=
  let deps : List DependencySpec :=
    [ ⟨"@types/node", "^22.10.0", .devDependency⟩,
      ⟨"eslint", "^9.17.0", .devDependency⟩,
      ⟨"@eslint/js", "^9.17.0", .devDependency⟩,
      ⟨"typescript-eslint", "^8.18.0", .devDependency⟩,
      ⟨"globals", "^15.0.0", .devDependency⟩ ]
  if config.packageType = .cli then
    deps ++
      [ ⟨"commander", "^12.1.0", .dependency⟩,
        ⟨"chalk", "^5.3.0", .dependency⟩,
        ⟨"@inquirer/prompts", "^7.2.0", .dependency⟩,
        ⟨"ora", "^8.1.0", .dependency⟩ ]
  else deps

/-- `NodeGenerator.getFrameworkFiles`. -/
def nodeFrameworkFiles (config : GeneratorConfig) : List GeneratedFile :=
  let files : List GeneratedFile :=
    if config.packageType = .cli then
      [ { path := "src/index.ts", template := "node/src/index-cli.ts.hbs", isTemplate := true },
        { path := "src/bin/cli.ts", template := "node/src/bin/cli.ts.hbs", isTemplate := true },
        { path := "src/commands/init.ts", template := "node/src/commands/init.ts.hbs", isTemplate := true },
        { path := "src/commands/index.ts", template := "node/src/commands/index.ts.hbs", isTemplate := true },
        { path := "src/utils/logger.ts", template := "node/src/utils/logger.ts.hbs", isTemplate := true },
        { path := "src/utils/index.ts", template := "node/src/utils/index.ts.hbs", isTemplate := true } ]
    else
      [ { path := "src/index.ts", template := "node/src/index.ts.hbs", isTemplate := true },
        { path := "src/core/client.ts", template := "node/src/core/client.ts.hbs", isTemplate := true },
        { path := "src/core/client.test.ts", template := "node/src/core/client.test.ts.hbs", isTemplate := true },
        { path := "src/core/index.ts", template := "node/src/core/index.ts.hbs", isTemplate := true },
        { path := "src/types.ts", template := "node/src/types.ts.hbs", isTemplate := true } ]
  let files := files ++
    [ { path := "eslint.config.js", template := "node/eslint.config.js.hbs", isTemplate := true } ]
  if config.includeExample then
    files ++
      [ { path := "example/package.json", template := "node/example/package.json.hbs", isTemplate := true } ] ++
      (if config.packageType = .cli then
        [ { path := "example/demo.sh", template := "node/example/demo.sh.hbs", isTemplate := true } ]
       else
        [ { path := "example/usage.ts", template := "node/example/usage.ts.hbs", isTemplate := true } ])
  else files

/-- `NodeGenerator.getExports` minus the `super.getExports(config)` call:
the `./bin` entry appended for CLI packages. -/
def nodeExtraExports (config : GeneratorConfig) : List ExportConfig :=
  if config.packageType = .cli then
    [ { path := "./bin", types := some "./dist/bin/cli.d.ts",
        «import» := some "./dist/bin/cli.js" } ]
  else []

/-- `NodeGenerator.getFrameworkPackageJsonExtras`. -/
def nodeFrameworkPackageJsonExtras (config : GeneratorConfig) : Obj :=
  let scripts : SMap :=
    [ ("lint", "eslint src"), ("lint:fix", "eslint src --fix") ]
  let scripts :=
    if config.includeExample ∧ config.packageType ≠ .cli then
      mset scripts "example:run" "cd example && npx tsx usage.ts"
    else scripts
  let extras : Obj :=
    [ ("engines", .obj [("node", .str ">=18.0.0")]),
      ("scripts", .obj (smapToObj scripts)) ]
  if config.packageType = .cli then
    mset extras "bin" (.obj [(packageShortName config.name, .str "./dist/bin/cli.js")])
  else extras

/-- `NodeGenerator.validateFrameworkConfig`. -/
def nodeValidateFrameworkConfig (config : GeneratorConfig) : List ValidationIssue :=
  if config.runtimeTarget = .browser then
    [{ severity := .warning, category := "config",
       message := "Node.js packages typically target Node.js, not browser",
       suggestion := some "Consider using \x22node\x22 or \x22universal\x22 as the runtime target" }]
  else []

/-- `NodeGenerator` with its `meta`. -/
def nodeGenerator : GeneratorSpec :=
  { meta :=
      { id := "node-package", name := "Node.js Package", framework := .node,
        description := "Generate a Node.js package or CLI tool with TypeScript",
        version := "1.0.0",
        supportedPackageTypes := [.utility, .library, .cli, .sdk],
        supportedRuntimeTargets := [.node, .edge],
        recommendedBuildSystem := .tsup },
    frameworkDependencies := nodeFrameworkDependencies,
    frameworkFiles := nodeFrameworkFiles,
    frameworkPackageJsonExtras := nodeFrameworkPackageJsonExtras,
    validateFrameworkConfig := nodeValidateFrameworkConfig,
    extraExports := nodeExtraExports }

/-! ### Generator registry (`src/core/registry.ts`)

`GeneratorRegistry` keeps two JS `Map`s: identity → generator and
framework tag → list of generators. Both are modelled as insertion-ordered
association lists with `Map` semantics (`mset`/`mget`/`mdel`/`mkeys`). -/

structure RegistryState where
  generators : List (String × GeneratorSpec)
  frameworkMap : List (Framework × List GeneratorSpec)

namespace RegistryState

/-- The empty registry (also the result of `clear()`). -/
def empty : RegistryState := ⟨[], []⟩

/-- Whether `register` would emit the "already registered. Overwriting."
warning for this generator (it warns, never errors). -/
def registerWarns (st : RegistryState) (g : GeneratorSpec) : Bool :=
  hasKey st.generators g.meta.id

/-- `GeneratorRegistry.register`. -/
def register (st : RegistryState) (g : GeneratorSpec) : RegistryState :=
  let id := g.meta.id
  let framework := g.meta.framework
  let generators := mset st.generators id g
  let existing := (mget st.frameworkMap framework).getD []
  let frameworkMap := mset st.frameworkMap framework (existing ++ [g])
  ⟨generators, frameworkMap⟩

/-- `GeneratorRegistry.unregister`. -/
def unregister (st : RegistryState) (id : String) : RegistryState × Bool :=
  match mget st.generators id with
  | none => (st, false)
  | some g =>
      let generators := mdel st.generators id
      let framework := g.meta.framework
      let existing := (mget st.frameworkMap framework).getD []
      let frameworkMap :=
        mset st.frameworkMap framework (existing.filter (fun h => h.meta.id ≠ id))
      (⟨generators, frameworkMap⟩, true)

/-- `GeneratorRegistry.get`. -/
def get (st : RegistryState) (id : String) : Option GeneratorSpec :=
  mget st.generators id

/-- `GeneratorRegistry.getByFramework`. -/
def getByFramework (st : RegistryState) (framework : Framework) : List GeneratorSpec :=
  (mget st.frameworkMap framework).getD []

/-- `GeneratorRegistry.getPrimary`: first registered is primary. -/
def getPrimary (st : RegistryState) (framework : Framework) : Option GeneratorSpec :=
  (st.getByFramework framework).head?

/-- `GeneratorRegistry.getSupportedFrameworks`. -/
def getSupportedFrameworks (st : RegistryState) : List Framework :=
  mkeys st.frameworkMap

/-- `GeneratorRegistry.has`. -/
def hasGen (st : RegistryState) (id : String) : Bool :=
  hasKey st.generators id

/-- `GeneratorRegistry.hasFramework`. -/
def hasFramework (st : RegistryState) (framework : Framework) : Bool :=
  (mget st.frameworkMap framework).isSome ∧
    ((mget st.frameworkMap framework).getD []).length > 0

end RegistryState

/-- One call against the registry, for stating invariants over arbitrary
finite operation sequences. -/
inductive RegOp
  | reg (g : GeneratorSpec)
  | unreg (id : String)

/-- Apply one operation. -/
def applyOp (st : RegistryState) : RegOp → RegistryState
  | .reg g => st.register g
  | .unreg id => (st.unregister id).1

/-- Apply a sequence of operations in order. -/
def applyOps (st : RegistryState) (ops : List RegOp) : RegistryState :=
  ops.foldl applyOp st

/-! ### Path and string helpers used by the orchestrator

Light models of `path.join`, `path.dirname`, `path.basename`,
`path.extname` and of JS `String.prototype.replace` with a string
pattern (which replaces only the first occurrence). -/

/-- `path.join(a, b)` for a relative segment `b`. -/
def pathJoin (a b : String) : String :=
  if a = "" then b
  else if a.endsWith "/" then a ++ b
  else a ++ "/" ++ b

/-- `path.basename`: everything after the last slash. -/
def basenameStr (p : String) : String :=
  String.mk ((p.data.reverse.takeWhile (fun c => c ≠ '/')).reverse)

/-- `path.dirname`: everything before the last slash, `"."` if none. -/
def dirname (p : String) : String :=
  let rev := p.data.reverse
  let afterCut := rev.dropWhile (fun c => c ≠ '/')
  match afterCut with
  | [] => "."
  | _ :: kept => if kept = [] then "/" else String.mk kept.reverse

/-- The suffix of a basename starting at its last dot, if any dot occurs. -/
def extSuffix : List Char → Option (List Char)
  | [] => none
  | c :: rest =>
      match extSuffix rest with
      | some e => some e
      | none => if c = '.' then some (c :: rest) else none

/-- `path.extname`: from the last dot of the basename, unless that dot is
the basename's first character. -/
def extname (p : String) : String :=
  match (basenameStr p).data with
  | [] => ""
  | _ :: rest =>
      match extSuffix rest with
      | some e => String.mk e
      | none => ""

/-- JS `s.replace(pat, rep)` with a string pattern: first occurrence only. -/
def replaceFirstL : List Char → List Char → List Char → List Char
  | [], pat, rep => if pat = [] then rep else []
  | c :: rest, pat, rep =>
      if pat.isPrefixOf (c :: rest) then rep ++ (c :: rest).drop pat.length
      else c :: replaceFirstL rest pat rep

def replaceFirst (s pat rep : String) : String :=
  String.mk (replaceFirstL s.data pat.data rep.data)

/-! ### Package generation orchestrator (`src/core/generator.ts`)

External effectful collaborators are oracles:
`render` models `templateEngine.render` (`none` = `TemplateNotFoundError`
thrown), `prettier` models `prettier.format` with the fixed option set
(`none` = the formatter throws for that parser/content). Filesystem
writes are recorded as an effect trace instead of performed. -/

/-- One recorded filesystem effect of a generation run. -/
inductive FsOp
  | ensureDir (path : String)
  | writeFile (path : String) (content : String)
  | writeJson (path : String) (json : Obj)

/-- The Prettier parser chosen for a file extension; `none` means the
`default` case, which returns the content unformatted. -/
def parserFor (ext : String) : Option String :=
  if ext = ".ts" ∨ ext = ".tsx" then some "typescript"
  else if ext = ".js" ∨ ext = ".jsx" ∨ ext = ".mjs" ∨ ext = ".cjs" then some "babel"
  else if ext = ".json" then some "json"
  else if ext = ".md" then some "markdown"
  else if ext = ".html" then some "html"
  else if ext = ".css" ∨ ext = ".scss" then some "css"
  else if ext = ".yaml" ∨ ext = ".yml" then some "yaml"
  else none

/-- `formatContent`: format via Prettier, returning the content unchanged
when no parser applies or the formatter throws (the `catch` branch). -/
def formatContent (prettier : String → String → Option String)
    (content filepath : String) : String :=
  match parserFor (extname filepath) with
  | none => content
  | some parser =>
      match prettier parser content with
      | some formatted => formatted
      | none => content

/-- `TemplateContext`: the merged rendering context
(`{...config, year, date, cliVersion, dependency groups, exports,
...extras, framework, generatorId}`). -/
structure TemplateContext where
  config : GeneratorConfig
  year : Nat
  date : String
  cliVersion : String
  dependencies : SMap
  devDependencies : SMap
  peerDependencies : SMap
  optionalDependencies : SMap
  exports : List ExportConfig
  extras : Obj
  framework : Framework
  generatorId : String

/-- `groupDependencies`: filter by kind, fold into a name→version map
(later entries overwrite earlier ones). -/
def groupDependencies (deps : List DependencySpec) (type : DepType) : SMap :=
  (deps.filter (fun d => d.type = type)).foldl
    (fun acc dep => mset acc dep.name dep.version) []

/-- `buildTemplateContext`; `year` and `date` stand for `new Date()`. -/
def buildTemplateContext (year : Nat) (date : String)
    (config : GeneratorConfig) (generator : GeneratorSpec) : TemplateContext :=
  let deps := generator.getDependencies config
  { config := config, year := year, date := date,
    cliVersion := "1.0.0-alpha.1",
    dependencies := groupDependencies deps .dependency,
    devDependencies := groupDependencies deps .devDependency,
    peerDependencies := groupDependencies deps .peerDependency,
    optionalDependencies := groupDependencies deps .optionalDependency,
    exports := generator.getExports config,
    extras := generator.getPackageJsonExtras config,
    framework := generator.meta.framework,
    generatorId := generator.meta.id }

/-- A string-valued object field that is dropped when the value is
`undefined` (JSON.stringify omits undefined-valued keys). -/
def optField (k : String) (v : Option String) : Obj :=
  match v with
  | some s => [(k, .str s)]
  | none => []

/-- One entry of the synthesized `exports` field: the `dual`-and-truthy-
`require` branch carries `types`/`import`/`require`/`default`, the other
branch only `types`/`import`/`default`; `default` falls back to `import`. -/
def exportEntry (config : GeneratorConfig) (exp : ExportConfig) : Obj :=
  let requireTruthy :=
    match exp.require with
    | some r => r ≠ ""
    | none => false
  let defaultOrImport :=
    match exp.default with
    | some d => if d ≠ "" then some d else exp.«import»
    | none => exp.«import»
  if config.moduleFormat == ModuleFormat.dual && requireTruthy then
    optField "types" exp.types ++ optField "import" exp.«import» ++
      optField "require" exp.require ++ optField "default" defaultOrImport
  else
    optField "types" exp.types ++ optField "import" exp.«import» ++
      optField "default" defaultOrImport

/-- The `exportsField` object assembled by `generatePackageJson`. -/
def buildExportsField (config : GeneratorConfig) (exports : List ExportConfig) : Obj :=
  exports.foldl (fun acc exp => mset acc exp.path (.obj (exportEntry config exp))) []

/-- `getBuildScript`. -/
def getBuildScript : BuildSystem → String
  | .tsup => "tsup"
  | .vite => "vite build"
  | .rollup => "rollup -c"
  | .unbuild => "unbuild"
  | .esbuild => "esbuild src/index.ts --bundle --outdir=dist --format=esm"

/-- `getDevScript`. -/
def getDevScript : BuildSystem → String
  | .tsup => "tsup --watch"
  | .vite => "vite build --watch"
  | .rollup => "rollup -c -w"
  | .unbuild => "unbuild --watch"
  | .esbuild => "esbuild src/index.ts --bundle --outdir=dist --format=esm --watch"

/-- `generatePackageJson`: the synthesized manifest object (the value
handed to `fs.writeJson`). -/
def generatePackageJson (generator : GeneratorSpec) (config : GeneratorConfig) : Obj :=
  let deps := generator.getDependencies config
  let exports := generator.getExports config
  let extras := generator.getPackageJsonExtras config
  let exportsField := buildExportsField config exports
  let baseScripts : SMap :=
    [ ("build", getBuildScript config.buildSystem),
      ("dev", getDevScript config.buildSystem),
      ("test", "vitest"),
      ("test:coverage", "vitest --coverage"),
      ("typecheck", "tsc --noEmit"),
      ("prepublishOnly", "npm run build") ]
  let extraScripts :=
    match mget extras "scripts" with
    | some v => jObjToSMap v
    | none => []
  let mergedScripts := ospread baseScripts extraScripts
  let restExtras := oerase extras "scripts"
  let packageJson : Obj :=
    [ ("name", .str config.name),
      ("version", .str "0.0.1"),
      ("description", .str config.description),
      ("type", .str "module"),
      ("main", .str "./dist/index.js"),
      ("module", .str "./dist/index.js"),
      ("types", .str "./dist/index.d.ts"),
      ("exports", .obj exportsField),
      ("files", .arr [.str "dist", .str "README.md", .str "LICENSE", .str "CHANGELOG.md"]),
      ("scripts", .obj (smapToObj mergedScripts)),
      ("keywords", .arr []),
      ("author", .str config.author),
      ("license", .str config.license),
      ("sideEffects", .boolean false) ]
  let packageJson := ospread packageJson restExtras
  let packageJson :=
    match config.repository with
    | some url =>
        if url ≠ "" then
          mset packageJson "repository" (.obj [("type", .str "git"), ("url", .str url)])
        else packageJson
    | none => packageJson
  let dependencies := groupDependencies deps .dependency
  let devDependencies := groupDependencies deps .devDependency
  let peerDependencies := groupDependencies deps .peerDependency
  let optionalDependencies := groupDependencies deps .optionalDependency
  let packageJson :=
    if dependencies ≠ [] then
      mset packageJson "dependencies" (.obj (smapToObj dependencies))
    else packageJson
  let packageJson :=
    if devDependencies ≠ [] then
      mset packageJson "devDependencies" (.obj (smapToObj devDependencies))
    else packageJson
  let packageJson :=
    if peerDependencies ≠ [] then
      mset packageJson "peerDependencies" (.obj (smapToObj peerDependencies))
    else packageJson
  if optionalDependencies ≠ [] then
    mset packageJson "optionalDependencies" (.obj (smapToObj optionalDependencies))
  else packageJson

/-- `generateNextSteps`. -/
def generateNextSteps (config : GeneratorConfig) : List String :=
  let dirName := basenameStr config.outDir
  ["cd " ++ dirName] ++
    (match config.packageManager with
     | .pnpm => ["pnpm install"]
     | .yarn => ["yarn"]
     | .bun => ["bun install"]
     | .npm => ["npm install"]) ++
    ["npm run build", "npm run test"]

/-- Template rendering with the alternate-path fallback of the file loop:
on `TemplateNotFound`, retry with the framework prefix re-derived and the
redundant prefixes stripped, in the order the source lists them. -/
def renderWithFallback (render : String → TemplateContext → Option String)
    (framework : Framework) (ctx : TemplateContext) (template : String) :
    Option String :=
  match render template ctx with
  | some content => some content
  | none =>
      let fwPrefix := framework.str ++ "/"
      let alt1 := framework.str ++ "/" ++
        replaceFirst (replaceFirst template fwPrefix "") "common/" ""
      let alt2 := replaceFirst template fwPrefix ""
      match render alt1 ctx with
      | some content => some content
      | none => render alt2 ctx

/-- The per-file generation loop of `generatePackage`: skips files whose
condition is false, ensures the parent directory, renders (with fallback)
or takes literal content, formats, writes, and stops with an error message
when a template cannot be resolved. Returns the written relative paths,
the effect trace, and the error if one was thrown. -/
def genFilesLoop (render : String → TemplateContext → Option String)
    (prettier : String → String → Option String)
    (framework : Framework) (ctx : TemplateContext)
    (config : GeneratorConfig) (outDir : String) :
    List GeneratedFile → List String → List FsOp →
      List String × List FsOp × Option String
  | [], files, effs => (files, effs, none)
  | file :: rest, files, effs =>
      if (match file.condition with
          | some cond => ! cond config
          | none => false) then
        genFilesLoop render prettier framework ctx config outDir rest files effs
      else
        let filePath := pathJoin outDir file.path
        let effs := effs ++ [.ensureDir (dirname filePath)]
        let content? :=
          if file.isTemplate then
            renderWithFallback render framework ctx file.template
          else some file.template
        match content? with
        | none => (files, effs, some ("Template not found: " ++ file.template))
        | some content =>
            let formattedContent := formatContent prettier content filePath
            genFilesLoop render prettier framework ctx config outDir rest
              (files ++ [file.path])
              (effs ++ [.writeFile filePath formattedContent])

/-- `generatePackage`: resolve the generator, validate, create the output
directory, generate files, synthesize the manifest, and return the result
together with the filesystem effect trace. `postGenerate` is the base
no-op for every generator in the repository. -/
def generatePackage (render : String → TemplateContext → Option String)
    (prettier : String → String → Option String) (year : Nat) (date : String)
    (reg : RegistryState) (framework : Framework)
    (config : GeneratorConfig) : GeneratorResult × List FsOp :=
  match reg.getPrimary framework with
  | none =>
      ({ success := false, files := [], warnings := [],
         error := some ("No generator found for framework: " ++ framework.str),
         nextSteps := [] }, [])
  | some generator =>
      let validation := generator.validate config
      if ¬ validation.valid then
        ({ success := false, files := [], warnings := [],
           error := some (String.intercalate "\n"
             ((validation.issues.filter (fun i => i.severity = .error)).map
               (fun i => i.message))),
           nextSteps := [] }, [])
      else
        let warnings :=
          (validation.issues.filter (fun i => i.severity = .warning)).map
            (fun i => i.message)
        let dirEffs : List FsOp := [.ensureDir config.outDir]
        let ctx := buildTemplateContext year date config generator
        let filesToGenerate := generator.getFiles config
        let loopResult :=
          genFilesLoop render prettier framework ctx config config.outDir
            filesToGenerate [] []
        match loopResult with
        | (files, fileEffs, some err) =>
            ({ success := false, files := files, warnings := warnings,
               error := some err, nextSteps := [] }, dirEffs ++ fileEffs)
        | (files, fileEffs, none) =>
            let pj := generatePackageJson generator config
            ({ success := true, files := files, warnings := warnings,
               nextSteps := generateNextSteps config },
             dirEffs ++ fileEffs ++
               [.writeJson (pathJoin config.outDir "package.json") pj])

/-! ### Derived definitions and concrete fixtures for the claims -/

/-- The value stored for the last occurrence of a key in a raw
(possibly duplicated-key) association list. -/
def lastLookup {κ β : Type} [DecidableEq κ] : List (κ × β) → κ → Option β
  | [], _ => none
  | (k', v') :: rest, k =>
      match lastLookup rest k with
      | some v => some v
      | none => if k' = k then some v' else none

/-- Every registered generator's framework tag is a key of the framework
map (registration always sets the key, and keys are never deleted). -/
def RegInv (st : RegistryState) : Prop :=
  ∀ p ∈ st.generators, p.2.meta.framework ∈ mkeys st.frameworkMap

/-- Framework tags of the `register` calls of an operation sequence,
in chronological order. -/
def regFrameworks : List RegOp → List Framework
  | [] => []
  | .reg g :: t => g.meta.framework :: regFrameworks t
  | .unreg _ :: t => regFrameworks t

/-- Distinct elements of a list, keeping the first occurrence of each. -/
def dedupKeepFirst {α : Type} [DecidableEq α] (l : List α) : List α :=
  l.foldl (fun acc k => if k ∈ acc then acc else acc ++ [k]) []

/-- Two distinguishable generators sharing the identity `react-library`
and the framework tag `react`. -/
def regGenA : GeneratorSpec :=
  { reactGenerator with meta := { reactGenerator.meta with version := "1.0.0-a" } }

def regGenB : GeneratorSpec :=
  { reactGenerator with meta := { reactGenerator.meta with version := "1.0.0-b" } }

def regSt1 : RegistryState := RegistryState.empty.register regGenA

def regSt2 : RegistryState := regSt1.register regGenB

/-- A fully valid baseline configuration used by the witnesses. -/
def cfgBase : GeneratorConfig :=
  { name := "my-lib", description := "A library", packageType := .library,
    runtimeTarget := .browser, moduleFormat := .esm, buildSystem := .tsup,
    packageManager := .npm, license := "MIT", author := "Dev",
    outDir := "out/my-lib" }

/-- A registry holding the React and Node generators. -/
def regBoth : RegistryState :=
  (RegistryState.empty.register reactGenerator).register nodeGenerator

/-- A configuration whose name is whitespace-only. -/
def cfgEmptyName : GeneratorConfig := { cfgBase with name := "   " }

/-- An otherwise-valid react configuration targeting the node runtime. -/
def cfgReactNode : GeneratorConfig := { cfgBase with runtimeTarget := .node }

/-- A react configuration with an empty name and a node runtime target:
its validation produces both error- and warning-severity issues. -/
def cfgEmptyNameNode : GeneratorConfig :=
  { cfgBase with name := "", runtimeTarget := .node }

/-- A node CLI configuration. -/
def cfgNodeCli : GeneratorConfig :=
  { cfgBase with name := "@acme/tool", packageType := .cli,
                 runtimeTarget := .node, outDir := "out/tool" }

/-- A node library configuration. -/
def cfgNodeLib : GeneratorConfig :=
  { cfgBase with packageType := .library, runtimeTarget := .node }

/-- A dual-module-format configuration. -/
def cfgDual : GeneratorConfig := { cfgBase with moduleFormat := .dual }

/-- Whether the file loop includes a file: its condition is absent or
evaluates to true for the configuration. -/
def included (f : GeneratedFile) (config : GeneratorConfig) : Bool :=
  match f.condition with
  | some cond => cond config
  | none => true

/-- The content of a file before the formatting pass: the rendered
template, or the literal `template` field when `isTemplate` is false. -/
def rawContent (render : String → TemplateContext → Option String)
    (ctx : TemplateContext) (f : GeneratedFile) : String :=
  if f.isTemplate then (render f.template ctx).getD "" else f.template

/-- The manifest section name for each dependency kind, as used by
`generatePackageJson`. -/
def kindKey : DepType → String
  | .dependency => "dependencies"
  | .devDependency => "devDependencies"
  | .peerDependency => "peerDependencies"
  | .optionalDependency => "optionalDependencies"

/-! ### Association-list lemmas shared by the claim proofs -/

theorem mget_mset {κ β : Type} [DecidableEq κ] (m : List (κ × β)) (k1 k : κ) (v : β) :
    mget (mset m k1 v) k = if k1 = k then some v else mget m k := by
  induction m with
  | nil => simp [mset, mget]
  | cons a t ih =>
      obtain ⟨ka, va⟩ := a
      by_cases h1 : ka = k1
      · subst h1
        by_cases h2 : ka = k
        · subst h2; simp [mset, mget]
        · simp [mset, mget, h2]
      · by_cases h2 : ka = k
        · subst h2
          simp [mset, mget, h1, Ne.symm h1]
        · simp [mset, mget, h1, h2, ih]

theorem mget_mset_self {κ β : Type} [DecidableEq κ] (m : List (κ × β)) (k : κ) (v : β) :
    mget (mset m k v) k = some v := by
  simp [mget_mset]

theorem mget_mset_ne {κ β : Type} [DecidableEq κ] (m : List (κ × β)) {k1 k : κ} (v : β)
    (h : k1 ≠ k) : mget (mset m k1 v) k = mget m k := by
  simp [mget_mset, h]

theorem mget_ospread {κ β : Type} [DecidableEq κ] (b a : List (κ × β)) (k : κ) :
    mget (ospread a b) k = (lastLookup b k).or (mget a k) := by
  induction b generalizing a with
  | nil => simp [ospread, lastLookup]
  | cons p t ih =>
      obtain ⟨k1, v1⟩ := p
      show mget (ospread (mset a k1 v1) t) k = _
      rw [ih]
      cases h : lastLookup t k with
      | some v => simp [lastLookup, h]
      | none =>
          simp [lastLookup, h, mget_mset]
          by_cases hk : k1 = k
          · subst hk; simp
          · simp [hk]

theorem mget_eq_none_iff {κ β : Type} [DecidableEq κ] (m : List (κ × β)) (k : κ) :
    mget m k = none ↔ ∀ p ∈ m, p.1 ≠ k := by
  induction m with
  | nil => simp [mget]
  | cons a t ih =>
      obtain ⟨ka, va⟩ := a
      by_cases h : ka = k
      · subst h; simp [mget]
      · simp [mget, h, ih]

theorem lastLookup_eq_none_iff_mget {κ β : Type} [DecidableEq κ] (m : List (κ × β))
    (k : κ) : lastLookup m k = none ↔ mget m k = none := by
  induction m with
  | nil => simp [lastLookup, mget]
  | cons a t ih =>
      obtain ⟨ka, va⟩ := a
      by_cases hk : ka = k
      · subst hk
        cases h : lastLookup t ka <;> simp [lastLookup, mget, h]
      · cases h : lastLookup t k with
        | some v =>
            simp [lastLookup, mget, h, hk]
            rw [← ih]
            simp [h]
        | none =>
            simp [lastLookup, mget, h, hk]
            exact ih.mp h

theorem lastLookup_eq_none_iff {κ β : Type} [DecidableEq κ] (m : List (κ × β)) (k : κ) :
    lastLookup m k = none ↔ ∀ p ∈ m, p.1 ≠ k := by
  rw [lastLookup_eq_none_iff_mget, mget_eq_none_iff]

theorem mem_of_mem_oerase {κ β : Type} [DecidableEq κ] {m : List (κ × β)} {k0 : κ}
    {p : κ × β} (h : p ∈ oerase m k0) : p ∈ m :=
  List.mem_of_mem_filter h

theorem mem_mset {κ β : Type} [DecidableEq κ] {m : List (κ × β)} {k : κ} {v : β}
    {p : κ × β} (h : p ∈ mset m k v) : p = (k, v) ∨ p ∈ m := by
  induction m with
  | nil => simpa [mset] using h
  | cons a t ih =>
      obtain ⟨ka, va⟩ := a
      by_cases hk : ka = k
      · subst hk
        simp only [mset, if_pos rfl] at h
        rcases List.mem_cons.mp h with h | h
        · exact Or.inl h
        · exact Or.inr (List.mem_cons_of_mem _ h)
      · simp only [mset, if_neg hk] at h
        rcases List.mem_cons.mp h with h | h
        · exact Or.inr (by simp [h])
        · rcases ih h with h | h
          · exact Or.inl h
          · exact Or.inr (List.mem_cons_of_mem _ h)

theorem mem_mdel {κ β : Type} [DecidableEq κ] {m : List (κ × β)} {k : κ}
    {p : κ × β} (h : p ∈ mdel m k) : p ∈ m := by
  induction m with
  | nil => simp [mdel] at h
  | cons a t ih =>
      obtain ⟨ka, va⟩ := a
      by_cases hk : ka = k
      · subst hk
        simp only [mdel, if_pos rfl] at h
        exact List.mem_cons_of_mem _ h
      · simp only [mdel, if_neg hk] at h
        rcases List.mem_cons.mp h with h | h
        · simp [h]
        · exact List.mem_cons_of_mem _ (ih h)

theorem mset_cons_pos {κ β : Type} [DecidableEq κ] (t : List (κ × β)) (k : κ)
    (va v : β) : mset ((k, va) :: t) k v = (k, v) :: t := by
  simp [mset]

theorem mset_cons_neg {κ β : Type} [DecidableEq κ] {ka k : κ} (t : List (κ × β))
    (va v : β) (h : ka ≠ k) : mset ((ka, va) :: t) k v = (ka, va) :: mset t k v := by
  simp [mset, h]

theorem mkeys_cons {κ β : Type} (a : κ × β) (t : List (κ × β)) :
    mkeys (a :: t) = a.1 :: mkeys t := rfl

theorem mget_mem {κ β : Type} [DecidableEq κ] {m : List (κ × β)} {k : κ} {v : β}
    (h : mget m k = some v) : (k, v) ∈ m := by
  induction m with
  | nil => simp [mget] at h
  | cons a t ih =>
      obtain ⟨ka, va⟩ := a
      by_cases hk : ka = k
      · subst hk
        rw [show mget ((ka, va) :: t) ka = some va by simp [mget]] at h
        rw [← Option.some.inj h]
        exact List.mem_cons_self _ _
      · simp only [mget, if_neg hk] at h
        exact List.mem_cons_of_mem _ (ih h)

theorem mkeys_mset_of_mem {κ β : Type} [DecidableEq κ] {m : List (κ × β)} {k : κ}
    (v : β) (h : k ∈ mkeys m) : mkeys (mset m k v) = mkeys m := by
  induction m with
  | nil => simp [mkeys] at h
  | cons a t ih =>
      obtain ⟨ka, va⟩ := a
      by_cases hk : ka = k
      · subst hk
        rw [mset_cons_pos, mkeys_cons, mkeys_cons]
      · have h3 : k ∈ mkeys t := by
          rcases List.mem_cons.mp (show k ∈ ka :: mkeys t from h) with h0 | h0
          · exact absurd h0.symm hk
          · exact h0
        rw [mset_cons_neg _ _ _ hk, mkeys_cons, mkeys_cons, ih h3]

theorem mkeys_mset_of_not_mem {κ β : Type} [DecidableEq κ] {m : List (κ × β)} {k : κ}
    (v : β) (h : k ∉ mkeys m) : mkeys (mset m k v) = mkeys m ++ [k] := by
  induction m with
  | nil => simp [mset, mkeys]
  | cons a t ih =>
      obtain ⟨ka, va⟩ := a
      have hka : ka ≠ k := by
        intro e
        exact h (by rw [mkeys_cons, e]; exact List.mem_cons_self _ _)
      have h2 : k ∉ mkeys t := fun hm =>
        h (by rw [mkeys_cons]; exact List.mem_cons_of_mem _ hm)
      rw [mset_cons_neg _ _ _ hka, mkeys_cons, mkeys_cons, ih h2, List.cons_append]

theorem mem_mkeys_mset_self {κ β : Type} [DecidableEq κ] (m : List (κ × β)) (k : κ)
    (v : β) : k ∈ mkeys (mset m k v) := by
  by_cases h : k ∈ mkeys m
  · rw [mkeys_mset_of_mem v h]; exact h
  · rw [mkeys_mset_of_not_mem v h]; simp

theorem mem_mkeys_mset_of_mem {κ β : Type} [DecidableEq κ] {m : List (κ × β)} {k' : κ}
    (k : κ) (v : β) (h : k' ∈ mkeys m) : k' ∈ mkeys (mset m k v) := by
  by_cases hk : k ∈ mkeys m
  · rw [mkeys_mset_of_mem v hk]; exact h
  · rw [mkeys_mset_of_not_mem v hk]; simp [h]

/-- Folding `mset` over a mapped list is `ospread` of the mapped pairs. -/
theorem foldl_mset_eq_ospread_map {α κ β : Type} [DecidableEq κ] (l : List α)
    (a : List (κ × β)) (key : α → κ) (val : α → β) :
    l.foldl (fun acc x => mset acc (key x) (val x)) a =
      ospread a (l.map (fun x => (key x, val x))) := by
  rw [ospread, List.foldl_map]

theorem mset_ne_nil {κ β : Type} [DecidableEq κ] (m : List (κ × β)) (k : κ) (v : β) :
    mset m k v ≠ [] := by
  cases m with
  | nil => simp [mset]
  | cons a t =>
      obtain ⟨ka, va⟩ := a
      by_cases h : ka = k <;> simp [mset, h]

theorem foldl_mset_ne_nil {α κ β : Type} [DecidableEq κ] (l : List α)
    (key : α → κ) (val : α → β) (a : List (κ × β)) (ha : a ≠ []) :
    l.foldl (fun acc x => mset acc (key x) (val x)) a ≠ [] := by
  induction l generalizing a with
  | nil => simpa
  | cons x t ih => exact ih _ (mset_ne_nil a (key x) (val x))

theorem getLast?_cons_or {α : Type} (a : α) (l : List α) :
    (a :: l).getLast? = l.getLast?.or (some a) := by
  induction l generalizing a with
  | nil => simp
  | cons b t ih =>
      rw [List.getLast?_cons_cons, ih b]
      cases h : t.getLast? with
      | none => simp
      | some x => simp

/-! ### Registry lemmas and claims C3, C4 -/


theorem regInv_empty : RegInv RegistryState.empty := by
  intro p hp
  simp [RegistryState.empty] at hp

theorem regInv_applyOp {st : RegistryState} (h : RegInv st) (op : RegOp) :
    RegInv (applyOp st op) := by
  cases op with
  | reg g =>
      intro p hp
      rcases mem_mset hp with rfl | hp
      · exact mem_mkeys_mset_self _ _ _
      · exact mem_mkeys_mset_of_mem _ _ (h p hp)
  | unreg id =>
      intro p hp
      cases hg : mget st.generators id with
      | none =>
          simp only [applyOp, RegistryState.unregister, hg] at hp ⊢
          exact h p hp
      | some g =>
          simp only [applyOp, RegistryState.unregister, hg] at hp ⊢
          exact mem_mkeys_mset_of_mem _ _ (h p (mem_mdel hp))

theorem mkeys_register (st : RegistryState) (g : GeneratorSpec) :
    mkeys (st.register g).frameworkMap =
      if g.meta.framework ∈ mkeys st.frameworkMap then mkeys st.frameworkMap
      else mkeys st.frameworkMap ++ [g.meta.framework] := by
  by_cases hm : g.meta.framework ∈ mkeys st.frameworkMap
  · simp [RegistryState.register, mkeys_mset_of_mem _ hm, hm]
  · simp [RegistryState.register, mkeys_mset_of_not_mem _ hm, hm]

theorem mkeys_unregister (st : RegistryState) (id : String) (hInv : RegInv st) :
    mkeys (st.unregister id).1.frameworkMap = mkeys st.frameworkMap := by
  cases hg : mget st.generators id with
  | none => simp [RegistryState.unregister, hg]
  | some g =>
      have hfw : g.meta.framework ∈ mkeys st.frameworkMap :=
        hInv (id, g) (mget_mem hg)
      simp [RegistryState.unregister, hg, mkeys_mset_of_mem _ hfw]

theorem mkeys_applyOps (ops : List RegOp) (st : RegistryState) (hInv : RegInv st) :
    mkeys (applyOps st ops).frameworkMap =
      (regFrameworks ops).foldl (fun acc k => if k ∈ acc then acc else acc ++ [k])
        (mkeys st.frameworkMap) := by
  induction ops generalizing st with
  | nil => rfl
  | cons op t ih =>
      have hInv' := regInv_applyOp hInv op
      cases op with
      | reg g =>
          show mkeys (applyOps (applyOp st (.reg g)) t).frameworkMap = _
          rw [ih _ hInv']
          show (regFrameworks t).foldl _ (mkeys (st.register g).frameworkMap) = _
          rw [mkeys_register st g]
          rfl
      | unreg id =>
          show mkeys (applyOps (applyOp st (.unreg id)) t).frameworkMap = _
          rw [ih _ hInv']
          show (regFrameworks t).foldl _ (mkeys (st.unregister id).1.frameworkMap) = _
          rw [mkeys_unregister st id hInv]
          rfl

/-- Claim C3 (amended): registering a second generator with an identity
that is already registered emits a warning (not an error) and replaces
the entry in the identity map, so `get` afterwards returns the new
generator; but the framework-tag bucket is only appended to — the
replaced generator is not removed from it, so `getByFramework` (and
hence `getPrimary`) can still yield the replaced generator. -/
theorem register_duplicate_id_appends (st : RegistryState) (g : GeneratorSpec)
    (h : st.hasGen g.meta.id = true) :
    st.registerWarns g = true ∧
    (st.register g).get g.meta.id = some g ∧
    (st.register g).getByFramework g.meta.framework =
      st.getByFramework g.meta.framework ++ [g] := by
  refine ⟨h, ?_, ?_⟩
  · show mget (mset st.generators g.meta.id g) g.meta.id = some g
    exact mget_mset_self _ _ _
  · show (mget (mset st.frameworkMap g.meta.framework
        (((mget st.frameworkMap g.meta.framework).getD []) ++ [g]))
        g.meta.framework).getD [] = _
    rw [mget_mset_self]
    rfl

/-- Claim C3 witness: concrete duplicate registration. -/
theorem register_duplicate_id_appends_witness :
    regSt1.registerWarns regGenB = true ∧
    (regSt1.register regGenB).get regGenB.meta.id = some regGenB ∧
    (regSt1.register regGenB).getByFramework regGenB.meta.framework =
      regSt1.getByFramework regGenB.meta.framework ++ [regGenB] :=
  register_duplicate_id_appends regSt1 regGenB rfl

/-- Claim C3 counterexample: after re-registering identity
`react-library`, `get` returns the new generator (version `1.0.0-b`) but
`getPrimary react` still yields the replaced one (version `1.0.0-a`),
which also still sits in the framework bucket — refuting the claim that
the replaced generator no longer appears in the framework-tag bucket. -/
theorem register_duplicate_id_counterexample :
    (regSt2.get "react-library").map (fun g => g.meta.version) = some "1.0.0-b" ∧
    (regSt2.getPrimary .react).map (fun g => g.meta.version) = some "1.0.0-a" ∧
    (regSt2.getByFramework .react).map (fun g => g.meta.version) =
      ["1.0.0-a", "1.0.0-b"] :=
  ⟨rfl, rfl, rfl⟩

/-- Claim C4 (amended): after any finite sequence of register/unregister
operations from the empty registry, `getSupportedFrameworks` returns the
distinct framework tags of all `register` calls performed, in order of
first registration — including a framework whose last generator has since
been unregistered, because `unregister` empties the framework bucket but
never deletes its key. -/
theorem getSupportedFrameworks_applyOps (ops : List RegOp) :
    (applyOps RegistryState.empty ops).getSupportedFrameworks =
      dedupKeepFirst (regFrameworks ops) := by
  have h := mkeys_applyOps ops RegistryState.empty regInv_empty
  exact h

/-- Claim C4 counterexample: register one react generator then
unregister it; `getSupportedFrameworks` still reports `react` even though
the framework has no registered generator — refuting the claim that such
a framework does not appear. -/
theorem getSupportedFrameworks_counterexample :
    (applyOps RegistryState.empty
        [.reg regGenA, .unreg "react-library"]).getSupportedFrameworks = [.react] ∧
    (applyOps RegistryState.empty
        [.reg regGenA, .unreg "react-library"]).getByFramework .react = [] :=
  ⟨rfl, rfl⟩

/-! ### Validation lemmas and claims C5, C6, C10 -/

theorem validate_valid_false_iff (g : GeneratorSpec) (config : GeneratorConfig) :
    (g.validate config).valid = false ↔
      ∃ i ∈ (g.validate config).issues, i.severity = .error := by
  have h : (g.validate config).valid
      = decide ¬((g.validate config).issues.any
          (fun i => decide (i.severity = Severity.error)) = true) := rfl
  rw [h]
  simp [List.any_eq_true]

theorem validate_issues_empty_name (g : GeneratorSpec) (config : GeneratorConfig)
    (hname : jsTrim config.name = "") :
    ({ severity := .error, category := "config",
       message := "Package name is required" } : ValidationIssue)
      ∈ (g.validate config).issues := by
  have hcond : (config.name = "" ∨ jsTrim config.name = "") := Or.inr hname
  simp only [GeneratorSpec.validate]
  rw [if_pos hcond]
  simp

theorem generatePackage_invalid (render : String → TemplateContext → Option String)
    (prettier : String → String → Option String) (year : Nat) (date : String)
    (reg : RegistryState) (framework : Framework) (config : GeneratorConfig)
    (g : GeneratorSpec) (hg : reg.getPrimary framework = some g)
    (hvalid : (g.validate config).valid = false) :
    generatePackage render prettier year date reg framework config =
      ({ success := false, files := [], warnings := [],
         error := some (String.intercalate "\n"
           (((g.validate config).issues.filter
               (fun i => i.severity = Severity.error)).map (fun i => i.message))),
         nextSteps := [] }, []) := by
  simp only [generatePackage, hg]
  simp [hvalid]

/-- Claim C5: for every framework tag with no registered generator,
`generatePackage` returns a failed result with an empty files list and a
non-empty error message, and performs no filesystem effect at all. -/
theorem generatePackage_unknown_framework
    (render : String → TemplateContext → Option String)
    (prettier : String → String → Option String) (year : Nat) (date : String)
    (reg : RegistryState) (framework : Framework) (config : GeneratorConfig)
    (h : reg.getPrimary framework = none) :
    (generatePackage render prettier year date reg framework config).1.success = false ∧
    (generatePackage render prettier year date reg framework config).1.files = [] ∧
    (generatePackage render prettier year date reg framework config).2 = [] ∧
    ∃ msg, (generatePackage render prettier year date reg framework config).1.error
        = some msg ∧ msg ≠ "" := by
  have heq : generatePackage render prettier year date reg framework config =
      ({ success := false, files := [], warnings := [],
         error := some ("No generator found for framework: " ++ framework.str),
         nextSteps := [] }, []) := by
    simp only [generatePackage, h]
  rw [heq]
  refine ⟨rfl, rfl, rfl, "No generator found for framework: " ++ framework.str,
    rfl, ?_⟩
  cases framework <;> decide

/-- Claim C5 witness: framework `deno` against the empty registry. -/
theorem generatePackage_unknown_framework_witness :
    (generatePackage (fun _ _ => none) (fun _ _ => none) 2026 "2026-10-12"
        RegistryState.empty .deno cfgBase).1.success = false ∧
    (generatePackage (fun _ _ => none) (fun _ _ => none) 2026 "2026-10-12"
        RegistryState.empty .deno cfgBase).1.files = [] ∧
    (generatePackage (fun _ _ => none) (fun _ _ => none) 2026 "2026-10-12"
        RegistryState.empty .deno cfgBase).2 = [] ∧
    ∃ msg, (generatePackage (fun _ _ => none) (fun _ _ => none) 2026 "2026-10-12"
        RegistryState.empty .deno cfgBase).1.error = some msg ∧ msg ≠ "" :=
  generatePackage_unknown_framework _ _ _ _ _ _ _ rfl

/-- Claim C6: for every registered generator and configuration whose name
is empty or whitespace-only, validation yields the error-severity issue
`Package name is required`, and `generatePackage` fails with no files and
no filesystem effect — before any directory is created. -/
theorem generatePackage_empty_name
    (render : String → TemplateContext → Option String)
    (prettier : String → String → Option String) (year : Nat) (date : String)
    (reg : RegistryState) (framework : Framework) (config : GeneratorConfig)
    (g : GeneratorSpec) (hg : reg.getPrimary framework = some g)
    (hname : jsTrim config.name = "") :
    (g.validate config).valid = false ∧
    (∃ i ∈ (g.validate config).issues,
        i.severity = .error ∧ i.message = "Package name is required") ∧
    (generatePackage render prettier year date reg framework config).1.success
      = false ∧
    (generatePackage render prettier year date reg framework config).1.files = [] ∧
    (generatePackage render prettier year date reg framework config).2 = [] := by
  have hmem := validate_issues_empty_name g config hname
  have hvalid : (g.validate config).valid = false :=
    (validate_valid_false_iff g config).mpr ⟨_, hmem, rfl⟩
  rw [generatePackage_invalid render prettier year date reg framework config g hg
    hvalid]
  exact ⟨hvalid, ⟨_, hmem, rfl, rfl⟩, rfl, rfl, rfl⟩

/-- Claim C6 witness: a whitespace-only name against the React generator. -/
theorem generatePackage_empty_name_witness :
    (reactGenerator.validate cfgEmptyName).valid = false ∧
    (∃ i ∈ (reactGenerator.validate cfgEmptyName).issues,
        i.severity = .error ∧ i.message = "Package name is required") ∧
    (generatePackage (fun _ _ => none) (fun _ _ => none) 2026 "2026-10-12"
        regBoth .react cfgEmptyName).1.success = false ∧
    (generatePackage (fun _ _ => none) (fun _ _ => none) 2026 "2026-10-12"
        regBoth .react cfgEmptyName).1.files = [] ∧
    (generatePackage (fun _ _ => none) (fun _ _ => none) 2026 "2026-10-12"
        regBoth .react cfgEmptyName).2 = [] :=
  generatePackage_empty_name _ _ _ _ _ _ _ _ rfl (by decide)

/-- Claim C10: when validation fails (with at least one warning-severity
issue alongside the errors), the failed result returned by
`generatePackage` carries an empty warnings list — warning-severity
issues are surfaced only on success. -/
theorem generatePackage_invalid_empty_warnings
    (render : String → TemplateContext → Option String)
    (prettier : String → String → Option String) (year : Nat) (date : String)
    (reg : RegistryState) (framework : Framework) (config : GeneratorConfig)
    (g : GeneratorSpec) (hg : reg.getPrimary framework = some g)
    (hvalid : (g.validate config).valid = false)
    (_hwarn : ∃ i ∈ (g.validate config).issues, i.severity = .warning) :
    (generatePackage render prettier year date reg framework config).1.warnings
      = [] ∧
    (generatePackage render prettier year date reg framework config).1.success
      = false := by
  rw [generatePackage_invalid render prettier year date reg framework config g hg
    hvalid]
  exact ⟨rfl, rfl⟩

/-- Claim C10 witness: an empty name plus node runtime target against the
React generator produces one error and one warning; the failed result has
no warnings. -/
theorem generatePackage_invalid_empty_warnings_witness :
    (generatePackage (fun _ _ => none) (fun _ _ => none) 2026 "2026-10-12"
        regBoth .react cfgEmptyNameNode).1.warnings = [] ∧
    (generatePackage (fun _ _ => none) (fun _ _ => none) 2026 "2026-10-12"
        regBoth .react cfgEmptyNameNode).1.success = false :=
  generatePackage_invalid_empty_warnings _ _ _ _ _ _ _ _ rfl (by decide)
    (by decide)

/-! ### Claim C2: react generator with node runtime target -/

/-- Claim C2 counterexample: for the react generator and an otherwise
fully valid configuration with `runtimeTarget = node`, `validate` does
NOT return a valid result — the base membership check flags the target as
an error because react's metadata only supports `browser`/`universal` —
refuting the claim that validation succeeds with only a warning. -/
theorem react_node_target_counterexample :
    (reactGenerator.validate cfgReactNode).valid = false ∧
    ∃ i ∈ (reactGenerator.validate cfgReactNode).issues,
      i.severity = .error ∧
      i.message = "Runtime target \x22node\x22 is not supported by React Library" := by
  decide

/-- Claim C2 (amended): for the react generator and every otherwise-valid
configuration with `runtimeTarget = node`, `validate` returns an invalid
result containing an error-severity issue for the unsupported runtime
target, and also at least one warning-severity issue whose suggestion
recommends the `browser` or `universal` target. -/
theorem react_validate_node_target (config : GeneratorConfig)
    (htarget : config.runtimeTarget = .node)
    (hname : config.name ≠ "") (hname2 : jsTrim config.name ≠ "")
    (hout : config.outDir ≠ "") (hout2 : jsTrim config.outDir ≠ "")
    (htype : reactGenerator.meta.supportedPackageTypes.contains config.packageType
      = true) :
    (reactGenerator.validate config).valid = false ∧
    (∃ i ∈ (reactGenerator.validate config).issues, i.severity = .error ∧
        i.message = "Runtime target \x22node\x22 is not supported by React Library") ∧
    (∃ i ∈ (reactGenerator.validate config).issues, i.severity = .warning ∧
        i.suggestion =
          some "Consider using \x22browser\x22 or \x22universal\x22 as the runtime target") := by
  have hA : ¬ (config.name = "" ∨ jsTrim config.name = "") := by
    rintro (h | h)
    · exact hname h
    · exact hname2 h
  have hD : ¬ (config.outDir = "" ∨ jsTrim config.outDir = "") := by
    rintro (h | h)
    · exact hout h
    · exact hout2 h
  have hissues : (reactGenerator.validate config).issues =
      [ { severity := .error, category := "config",
          message := "Runtime target \x22node\x22 is not supported by React Library",
          suggestion := some "Supported targets: browser, universal" },
        { severity := .warning, category := "config",
          message := "React libraries typically target browser, not Node.js",
          suggestion :=
            some "Consider using \x22browser\x22 or \x22universal\x22 as the runtime target" } ] := by
    have htype' : ([PackageType.library, PackageType.utility,
        PackageType.plugin].contains config.packageType) = true := htype
    simp only [GeneratorSpec.validate, reactGenerator, reactValidateFrameworkConfig,
      htarget]
    rw [if_neg hA, if_neg (not_not_intro htype'),
      if_pos (show ¬(([RuntimeTarget.browser,
        RuntimeTarget.universal].contains RuntimeTarget.node) = true) by decide),
      if_neg hD]
    decide
  refine ⟨?_, ?_, ?_⟩
  · apply (validate_valid_false_iff reactGenerator config).mpr
    rw [hissues]
    exact ⟨_, List.mem_cons_self _ _, rfl⟩
  · rw [hissues]
    exact ⟨_, List.mem_cons_self _ _, rfl, rfl⟩
  · rw [hissues]
    exact ⟨_, List.mem_cons_of_mem _ (List.mem_cons_self _ _), rfl, rfl⟩

/-- Claim C2 witness: the concrete react/node-target configuration. -/
theorem react_validate_node_target_witness :
    (reactGenerator.validate cfgReactNode).valid = false ∧
    (∃ i ∈ (reactGenerator.validate cfgReactNode).issues, i.severity = .error ∧
        i.message = "Runtime target \x22node\x22 is not supported by React Library") ∧
    (∃ i ∈ (reactGenerator.validate cfgReactNode).issues, i.severity = .warning ∧
        i.suggestion =
          some "Consider using \x22browser\x22 or \x22universal\x22 as the runtime target") :=
  react_validate_node_target cfgReactNode rfl (by decide) (by decide) (by decide)
    (by decide) (by decide)

/-! ### Claim C1: the root export's `require` path and `dual` format -/

theorem mget_buildExportsField_root (g : GeneratorSpec) (config : GeneratorConfig)
    (hextra : ∀ e ∈ g.extraExports config, e.path ≠ ".") (root : ExportConfig)
    (hbase : GeneratorSpec.baseGetExports config = [root])
    (hpath : root.path = ".") :
    mget (buildExportsField config (g.getExports config)) "." =
      some (.obj (exportEntry config root)) := by
  have hb : buildExportsField config (g.getExports config) =
      ospread [] ((g.getExports config).map
        (fun e => (e.path, JValue.obj (exportEntry config e)))) :=
    foldl_mset_eq_ospread_map _ _ _ _
  have hexp : g.getExports config = root :: g.extraExports config := by
    show GeneratorSpec.baseGetExports config ++ g.extraExports config = _
    rw [hbase]
    rfl
  have hnone : lastLookup ((g.extraExports config).map
      (fun e => (e.path, JValue.obj (exportEntry config e)))) "." = none := by
    rw [lastLookup_eq_none_iff]
    intro p hp
    rcases List.mem_map.mp hp with ⟨e, he, rfl⟩
    exact hextra e he
  rw [hb, hexp, mget_ospread]
  simp only [List.map_cons, lastLookup, hnone, hpath]
  simp [mget]

/-- Claim C1: for every configuration with `moduleFormat = dual`, the root
export entry produced by the base generator's `getExports` carries a
`require` path, and the root entry of the synthesized package.json
`exports` field contains a `require` key; for `esm`/`cjs` configurations
neither does. Stated for every generator whose subclass exports do not
shadow the root subpath (true of every generator in the repository). -/
theorem root_export_require_iff_dual (g : GeneratorSpec) (config : GeneratorConfig)
    (hextra : ∀ e ∈ g.extraExports config, e.path ≠ ".") :
    (∀ root ∈ GeneratorSpec.baseGetExports config,
        (config.moduleFormat = .dual → root.require = some "./dist/index.cjs") ∧
        (config.moduleFormat ≠ .dual → root.require = none)) ∧
    ∃ entry, mget (buildExportsField config (g.getExports config)) "." =
        some (.obj entry) ∧
      (hasKey entry "require" = true ↔ config.moduleFormat = .dual) := by
  constructor
  · intro root hmem
    cases hm : config.moduleFormat <;>
      simp [GeneratorSpec.baseGetExports, hm] at hmem <;>
      subst hmem <;> simp [hm]
  · cases hm : config.moduleFormat with
    | esm =>
        have hbase : GeneratorSpec.baseGetExports config =
            [{ path := ".", types := some "./dist/index.d.ts",
               «import» := some "./dist/index.js",
               default := some "./dist/index.js" }] := by
          simp [GeneratorSpec.baseGetExports, hm]
        refine ⟨_, mget_buildExportsField_root g config hextra _ hbase rfl, ?_⟩
        simp [exportEntry, hm, hasKey, optField, mget]
    | cjs =>
        have hbase : GeneratorSpec.baseGetExports config =
            [{ path := ".", types := some "./dist/index.d.ts",
               «import» := some "./dist/index.js",
               default := some "./dist/index.js" }] := by
          simp [GeneratorSpec.baseGetExports, hm]
        refine ⟨_, mget_buildExportsField_root g config hextra _ hbase rfl, ?_⟩
        simp [exportEntry, hm, hasKey, optField, mget]
    | dual =>
        have hbase : GeneratorSpec.baseGetExports config =
            [{ path := ".", types := some "./dist/index.d.ts",
               «import» := some "./dist/index.js",
               require := some "./dist/index.cjs",
               default := some "./dist/index.js" }] := by
          simp [GeneratorSpec.baseGetExports, hm]
        refine ⟨_, mget_buildExportsField_root g config hextra _ hbase rfl, ?_⟩
        simp [exportEntry, hm, hasKey, optField, mget]

/-- Claim C1 witness: the node generator with a dual-format library
configuration. -/
theorem root_export_require_iff_dual_witness :
    (∀ root ∈ GeneratorSpec.baseGetExports cfgDual,
        (cfgDual.moduleFormat = .dual → root.require = some "./dist/index.cjs") ∧
        (cfgDual.moduleFormat ≠ .dual → root.require = none)) ∧
    ∃ entry, mget (buildExportsField cfgDual (nodeGenerator.getExports cfgDual)) "."
        = some (.obj entry) ∧
      (hasKey entry "require" = true ↔ cfgDual.moduleFormat = .dual) :=
  root_export_require_iff_dual nodeGenerator cfgDual (by decide)

/-! ### Claim C7: dependency round-trip into the manifest -/

theorem mget_condmset_ne {c : Prop} [Decidable c] (m : Obj) (k key : String)
    (v : JValue) (h : k ≠ key) :
    mget (if c then mset m k v else m) key = mget m key := by
  split_ifs
  · exact mget_mset_ne _ _ h
  · rfl

theorem mget_condmset_self {c : Prop} [Decidable c] (m : Obj) (k : String)
    (v : JValue) :
    mget (if c then mset m k v else m) k = if c then some v else mget m k := by
  split_ifs
  · exact mget_mset_self _ _ _
  · rfl

theorem mget_groupDependencies (deps : List DependencySpec) (ty : DepType)
    (n : String) :
    mget (groupDependencies deps ty) n =
      lastLookup ((deps.filter (fun d => d.type = ty)).map
        (fun d => (d.name, d.version))) n := by
  have hb : groupDependencies deps ty =
      ospread [] ((deps.filter (fun d => d.type = ty)).map
        (fun d => (d.name, d.version))) :=
    foldl_mset_eq_ospread_map _ _ _ _
  rw [hb, mget_ospread]
  simp [mget]

theorem lastLookup_filter_map (l : List DependencySpec) (n : String) (ty : DepType) :
    lastLookup ((l.filter (fun d => d.type = ty)).map
        (fun d => (d.name, d.version))) n =
      ((l.filter (fun d => d.name = n ∧ d.type = ty)).getLast?).map
        (fun d => d.version) := by
  induction l with
  | nil => rfl
  | cons d t ih =>
      by_cases hty : d.type = ty
      · have hf1 : List.filter (fun e => decide (e.type = ty)) (d :: t) =
            d :: List.filter (fun e => decide (e.type = ty)) t :=
          List.filter_cons_of_pos (by simp [hty])
        by_cases hn : d.name = n
        · have hf2 : List.filter (fun e => decide (e.name = n ∧ e.type = ty)) (d :: t) =
              d :: List.filter (fun e => decide (e.name = n ∧ e.type = ty)) t :=
            List.filter_cons_of_pos (by simp [hty, hn])
          rw [hf1, hf2, List.map_cons, getLast?_cons_or]
          cases hF : (List.filter (fun e => decide (e.name = n ∧ e.type = ty))
              t).getLast? with
          | none =>
              rw [hF] at ih
              simp only [lastLookup, ih]
              simp [hn]
          | some x =>
              rw [hF] at ih
              simp only [lastLookup, ih]
              simp
        · have hf2 : List.filter (fun e => decide (e.name = n ∧ e.type = ty)) (d :: t) =
              List.filter (fun e => decide (e.name = n ∧ e.type = ty)) t :=
            List.filter_cons_of_neg (by simp [hn])
          rw [hf1, hf2, List.map_cons]
          simp only [lastLookup, ih]
          cases hF : (List.filter (fun e => decide (e.name = n ∧ e.type = ty))
              t).getLast? <;> simp [hn]
      · have hf1 : List.filter (fun e => decide (e.type = ty)) (d :: t) =
            List.filter (fun e => decide (e.type = ty)) t :=
          List.filter_cons_of_neg (by simp [hty])
        have hf2 : List.filter (fun e => decide (e.name = n ∧ e.type = ty)) (d :: t) =
            List.filter (fun e => decide (e.name = n ∧ e.type = ty)) t :=
          List.filter_cons_of_neg (by simp [hty])
        rw [hf1, hf2]
        exact ih

theorem groupDependencies_eq_nil_iff (deps : List DependencySpec) (ty : DepType) :
    groupDependencies deps ty = [] ↔ ∀ d ∈ deps, d.type ≠ ty := by
  constructor
  · intro h
    cases hf : deps.filter (fun d => d.type = ty) with
    | nil =>
        intro d hd hdt
        have hm : d ∈ deps.filter (fun d => d.type = ty) :=
          List.mem_filter.mpr ⟨hd, by simp [hdt]⟩
        rw [hf] at hm
        simp at hm
    | cons x t =>
        exfalso
        apply foldl_mset_ne_nil t (fun d : DependencySpec => d.name)
          (fun d : DependencySpec => d.version) (mset [] x.name x.version)
          (mset_ne_nil _ _ _)
        have h2 : (deps.filter (fun d => d.type = ty)).foldl
            (fun acc dep => mset acc dep.name dep.version) [] = [] := h
        rw [hf] at h2
        exact h2
  · intro h
    have hf : deps.filter (fun d => d.type = ty) = [] := by
      rw [List.filter_eq_nil_iff]
      intro d hd
      simp [h d hd]
    show (deps.filter (fun d => d.type = ty)).foldl
        (fun acc dep => mset acc dep.name dep.version) [] = []
    rw [hf]
    rfl

theorem getLast?_isSome_of_ne_nil {α : Type} {l : List α} (h : l ≠ []) :
    l.getLast?.isSome = true := by
  cases l with
  | nil => exact absurd rfl h
  | cons a t =>
      rw [getLast?_cons_or]
      cases t.getLast? <;> simp

theorem mget_generatePackageJson_section (g : GeneratorSpec)
    (config : GeneratorConfig) (ty : DepType)
    (hext : mget (g.getPackageJsonExtras config) (kindKey ty) = none) :
    mget (generatePackageJson g config) (kindKey ty) =
      if groupDependencies (g.getDependencies config) ty = [] then none
      else some (.obj (smapToObj (groupDependencies (g.getDependencies config) ty))) := by
  have hrest : lastLookup (oerase (g.getPackageJsonExtras config) "scripts")
      (kindKey ty) = none := by
    rw [lastLookup_eq_none_iff]
    intro p hp he
    exact (mget_eq_none_iff _ _).mp hext p (mem_of_mem_oerase hp) he
  simp only [generatePackageJson]
  cases hrepo : config.repository with
  | none =>
      cases ty with
      | dependency =>
          simp only [kindKey] at hrest ⊢
          rw [mget_condmset_ne _ _ _ _ (by decide),
            mget_condmset_ne _ _ _ _ (by decide),
            mget_condmset_ne _ _ _ _ (by decide), mget_condmset_self,
            mget_ospread, hrest]
          by_cases hD : groupDependencies (g.getDependencies config) .dependency = [] <;>
            simp [hD, mget]
      | devDependency =>
          simp only [kindKey] at hrest ⊢
          rw [mget_condmset_ne _ _ _ _ (by decide),
            mget_condmset_ne _ _ _ _ (by decide), mget_condmset_self,
            mget_condmset_ne _ _ _ _ (by decide),
            mget_ospread, hrest]
          by_cases hD : groupDependencies (g.getDependencies config) .devDependency = [] <;>
            simp [hD, mget]
      | peerDependency =>
          simp only [kindKey] at hrest ⊢
          rw [mget_condmset_ne _ _ _ _ (by decide), mget_condmset_self,
            mget_condmset_ne _ _ _ _ (by decide),
            mget_condmset_ne _ _ _ _ (by decide),
            mget_ospread, hrest]
          by_cases hD : groupDependencies (g.getDependencies config) .peerDependency = [] <;>
            simp [hD, mget]
      | optionalDependency =>
          simp only [kindKey] at hrest ⊢
          rw [mget_condmset_self,
            mget_condmset_ne _ _ _ _ (by decide),
            mget_condmset_ne _ _ _ _ (by decide),
            mget_condmset_ne _ _ _ _ (by decide),
            mget_ospread, hrest]
          by_cases hD : groupDependencies (g.getDependencies config) .optionalDependency = [] <;>
            simp [hD, mget]
  | some url =>
      cases ty with
      | dependency =>
          simp only [kindKey] at hrest ⊢
          rw [mget_condmset_ne _ _ _ _ (by decide),
            mget_condmset_ne _ _ _ _ (by decide),
            mget_condmset_ne _ _ _ _ (by decide), mget_condmset_self,
            mget_condmset_ne _ _ _ _ (by decide),
            mget_ospread, hrest]
          by_cases hD : groupDependencies (g.getDependencies config) .dependency = [] <;>
            simp [hD, mget]
      | devDependency =>
          simp only [kindKey] at hrest ⊢
          rw [mget_condmset_ne _ _ _ _ (by decide),
            mget_condmset_ne _ _ _ _ (by decide), mget_condmset_self,
            mget_condmset_ne _ _ _ _ (by decide),
            mget_condmset_ne _ _ _ _ (by decide),
            mget_ospread, hrest]
          by_cases hD : groupDependencies (g.getDependencies config) .devDependency = [] <;>
            simp [hD, mget]
      | peerDependency =>
          simp only [kindKey] at hrest ⊢
          rw [mget_condmset_ne _ _ _ _ (by decide), mget_condmset_self,
            mget_condmset_ne _ _ _ _ (by decide),
            mget_condmset_ne _ _ _ _ (by decide),
            mget_condmset_ne _ _ _ _ (by decide),
            mget_ospread, hrest]
          by_cases hD : groupDependencies (g.getDependencies config) .peerDependency = [] <;>
            simp [hD, mget]
      | optionalDependency =>
          simp only [kindKey] at hrest ⊢
          rw [mget_condmset_self,
            mget_condmset_ne _ _ _ _ (by decide),
            mget_condmset_ne _ _ _ _ (by decide),
            mget_condmset_ne _ _ _ _ (by decide),
            mget_condmset_ne _ _ _ _ (by decide),
            mget_ospread, hrest]
          by_cases hD : groupDependencies (g.getDependencies config) .optionalDependency = [] <;>
            simp [hD, mget]

/-- Claim C7: every dependency a generator declares appears in the
synthesized manifest's section for its kind keyed by package name, with
the version of the last declaration of that name and kind winning; and a
kind's section is present in the manifest iff at least one dependency of
that kind was declared. Stated for every generator whose package.json
extras do not themselves use a dependency-section key (true of every
generator in the repository). -/
theorem manifest_dependency_roundtrip (g : GeneratorSpec) (config : GeneratorConfig)
    (hext : ∀ ty : DepType, mget (g.getPackageJsonExtras config) (kindKey ty) = none) :
    (∀ d ∈ g.getDependencies config,
      ∃ sec : SMap,
        mget (generatePackageJson g config) (kindKey d.type) =
          some (.obj (smapToObj sec)) ∧
        mget sec d.name =
          (((g.getDependencies config).filter
              (fun e => e.name = d.name ∧ e.type = d.type)).getLast?).map
            (fun e => e.version) ∧
        (mget sec d.name).isSome = true) ∧
    (∀ ty : DepType,
        (mget (generatePackageJson g config) (kindKey ty)).isSome = true ↔
          ∃ d ∈ g.getDependencies config, d.type = ty) := by
  constructor
  · intro d hd
    have hne : ¬ groupDependencies (g.getDependencies config) d.type = [] := by
      intro h
      exact (groupDependencies_eq_nil_iff _ _).mp h d hd rfl
    refine ⟨groupDependencies (g.getDependencies config) d.type, ?_, ?_, ?_⟩
    · rw [mget_generatePackageJson_section g config d.type (hext d.type), if_neg hne]
    · rw [mget_groupDependencies, lastLookup_filter_map]
    · rw [mget_groupDependencies, lastLookup_filter_map]
      have hfne : (g.getDependencies config).filter
          (fun e => e.name = d.name ∧ e.type = d.type) ≠ [] := by
        intro h
        have hm : d ∈ (g.getDependencies config).filter
            (fun e => e.name = d.name ∧ e.type = d.type) :=
          List.mem_filter.mpr ⟨hd, by simp⟩
        rw [h] at hm
        simp at hm
      have h2 := getLast?_isSome_of_ne_nil hfne
      cases hl : (List.filter (fun e => decide (e.name = d.name ∧ e.type = d.type))
          (g.getDependencies config)).getLast? with
      | none =>
          rw [hl] at h2
          simp at h2
      | some x => rfl
  · intro ty
    rw [mget_generatePackageJson_section g config ty (hext ty)]
    by_cases hg : groupDependencies (g.getDependencies config) ty = []
    · rw [if_pos hg]
      constructor
      · intro h
        simp at h
      · rintro ⟨d, hd, hdt⟩
        exact absurd hdt ((groupDependencies_eq_nil_iff _ _).mp hg d hd)
    · rw [if_neg hg]
      simp only [Option.isSome_some, true_iff]
      by_contra hno
      push_neg at hno
      exact hg ((groupDependencies_eq_nil_iff _ _).mpr fun d hd hdt =>
        absurd hdt (by simpa using hno d hd))

/-- Claim C7 witness: the node CLI configuration (which declares runtime,
dev and no peer/optional dependencies). -/
theorem manifest_dependency_roundtrip_witness :
    (∀ d ∈ nodeGenerator.getDependencies cfgNodeCli,
      ∃ sec : SMap,
        mget (generatePackageJson nodeGenerator cfgNodeCli) (kindKey d.type) =
          some (.obj (smapToObj sec)) ∧
        mget sec d.name =
          (((nodeGenerator.getDependencies cfgNodeCli).filter
              (fun e => e.name = d.name ∧ e.type = d.type)).getLast?).map
            (fun e => e.version) ∧
        (mget sec d.name).isSome = true) ∧
    (∀ ty : DepType,
        (mget (generatePackageJson nodeGenerator cfgNodeCli) (kindKey ty)).isSome
            = true ↔
          ∃ d ∈ nodeGenerator.getDependencies cfgNodeCli, d.type = ty) :=
  manifest_dependency_roundtrip nodeGenerator cfgNodeCli (by intro ty; cases ty <;> rfl)

/-! ### Claim C8: node generator `bin` field and `./bin` export -/

/-- The `bin` key of the synthesized manifest comes only from the
generator's extras: the fixed fields, the repository object and the
dependency sections never use it. -/
theorem mget_generatePackageJson_bin (g : GeneratorSpec) (config : GeneratorConfig) :
    mget (generatePackageJson g config) "bin" =
      lastLookup (oerase (g.getPackageJsonExtras config) "scripts") "bin" := by
  simp only [generatePackageJson]
  cases hrepo : config.repository with
  | none =>
      rw [mget_condmset_ne _ _ _ _ (by decide),
        mget_condmset_ne _ _ _ _ (by decide),
        mget_condmset_ne _ _ _ _ (by decide),
        mget_condmset_ne _ _ _ _ (by decide),
        mget_ospread]
      simp [mget]
  | some url =>
      rw [mget_condmset_ne _ _ _ _ (by decide),
        mget_condmset_ne _ _ _ _ (by decide),
        mget_condmset_ne _ _ _ _ (by decide),
        mget_condmset_ne _ _ _ _ (by decide),
        mget_condmset_ne _ _ _ _ (by decide),
        mget_ospread]
      simp [mget]

/-- Claim C8: for the node generator with `packageType = cli` (and
`moduleFormat = esm`), the synthesized manifest contains a `bin` field
and `getExports` returns the root entry plus an additional `./bin`
entry; with `packageType = library` the manifest has no `bin` field. -/
theorem node_cli_bin_field (config : GeneratorConfig) :
    (config.packageType = .cli → config.moduleFormat = .esm →
        hasKey (generatePackageJson nodeGenerator config) "bin" = true ∧
        nodeGenerator.getExports config =
          [ { path := ".", types := some "./dist/index.d.ts",
              «import» := some "./dist/index.js",
              default := some "./dist/index.js" },
            { path := "./bin", types := some "./dist/bin/cli.d.ts",
              «import» := some "./dist/bin/cli.js" } ]) ∧
    (config.packageType = .library →
        hasKey (generatePackageJson nodeGenerator config) "bin" = false) := by
  refine ⟨fun hcli hesm => ⟨?_, ?_⟩, fun hlib => ?_⟩
  · simp only [hasKey, mget_generatePackageJson_bin]
    simp [GeneratorSpec.getPackageJsonExtras, GeneratorSpec.getCommonPackageJsonExtras,
      nodeGenerator, nodeFrameworkPackageJsonExtras, hcli, ospread, mset, oerase,
      lastLookup]
  · simp [GeneratorSpec.getExports, GeneratorSpec.baseGetExports, nodeGenerator,
      nodeExtraExports, hcli, hesm]
  · simp only [hasKey, mget_generatePackageJson_bin]
    simp [GeneratorSpec.getPackageJsonExtras, GeneratorSpec.getCommonPackageJsonExtras,
      nodeGenerator, nodeFrameworkPackageJsonExtras, hlib, ospread, mset, oerase,
      lastLookup]

/-- Claim C8 witness: the concrete node CLI and node library configs. -/
theorem node_cli_bin_field_witness :
    (hasKey (generatePackageJson nodeGenerator cfgNodeCli) "bin" = true ∧
      nodeGenerator.getExports cfgNodeCli =
        [ { path := ".", types := some "./dist/index.d.ts",
            «import» := some "./dist/index.js",
            default := some "./dist/index.js" },
          { path := "./bin", types := some "./dist/bin/cli.d.ts",
            «import» := some "./dist/bin/cli.js" } ]) ∧
    hasKey (generatePackageJson nodeGenerator cfgNodeLib) "bin" = false :=
  ⟨(node_cli_bin_field cfgNodeCli).1 rfl rfl, (node_cli_bin_field cfgNodeLib).2 rfl⟩

/-! ### Claim C9: Prettier failure is non-fatal -/

/-- When the formatter throws on every input, `formatContent` returns the
content unchanged (the `catch` branch of `formatContent`). -/
theorem formatContent_fail (content filepath : String) :
    formatContent (fun _ _ => none) content filepath = content := by
  simp only [formatContent]
  cases parserFor (extname filepath) <;> rfl

theorem skip_eq_not_included (f : GeneratedFile) (config : GeneratorConfig) :
    (match f.condition with
     | some cond => ! cond config
     | none => false) = ! included f config := by
  cases hc : f.condition <;> simp [included, hc]

theorem genFilesLoop_all_rendered
    (render : String → TemplateContext → Option String) (framework : Framework)
    (ctx : TemplateContext) (config : GeneratorConfig) (outDir : String)
    (l : List GeneratedFile)
    (hrender : ∀ f ∈ l, included f config = true → f.isTemplate = true →
        (render f.template ctx).isSome = true) :
    ∀ (files : List String) (effs : List FsOp),
      genFilesLoop render (fun _ _ => none) framework ctx config outDir l files effs =
        (files ++ (l.filter (fun f => included f config)).map (fun f => f.path),
         effs ++ (l.filter (fun f => included f config)).bind (fun f =>
           [FsOp.ensureDir (dirname (pathJoin outDir f.path)),
            FsOp.writeFile (pathJoin outDir f.path) (rawContent render ctx f)]),
         none) := by
  induction l with
  | nil => intro files effs; simp [genFilesLoop]
  | cons f t ih =>
      intro files effs
      have ih' := ih (fun f hf => hrender f (List.mem_cons_of_mem _ hf))
      by_cases hinc : included f config = true
      · have hcontent : (if f.isTemplate then
            renderWithFallback render framework ctx f.template
          else some f.template) = some (rawContent render ctx f) := by
          by_cases hT : f.isTemplate = true
          · have hs := hrender f (List.mem_cons_self _ _) hinc hT
            cases hr : render f.template ctx with
            | none => rw [hr] at hs; simp at hs
            | some c =>
                simp only [hT, if_pos, renderWithFallback, hr, rawContent]
                simp [hr]
          · simp only [rawContent]
            rw [if_neg (by simpa using hT), if_neg (by simpa using hT)]
        show genFilesLoop _ _ _ _ _ _ (f :: t) files effs = _
        rw [genFilesLoop, skip_eq_not_included, hinc]
        simp only [Bool.not_true, if_neg (by simp : ¬ (false = true))]
        rw [hcontent]
        simp only [formatContent_fail]
        rw [ih']
        rw [List.filter_cons_of_pos (by simpa using hinc)]
        simp [List.append_assoc]
      · have hincf : included f config = false := by
          cases h : included f config
          · rfl
          · exact absurd h hinc
        show genFilesLoop _ _ _ _ _ _ (f :: t) files effs = _
        rw [genFilesLoop, skip_eq_not_included, hincf]
        rw [ih']
        rw [List.filter_cons_of_neg (by simp [hincf])]
        simp

/-- Claim C9: a formatter that throws for every file is not
generation-fatal — `generatePackage` still succeeds, every included file
appears in the result's files list (in declaration order), and for every
included file a write effect with the unformatted rendered content is
performed; the run continues through the whole file list. -/
theorem generatePackage_prettier_failure_not_fatal
    (render : String → TemplateContext → Option String) (year : Nat) (date : String)
    (reg : RegistryState) (framework : Framework) (config : GeneratorConfig)
    (g : GeneratorSpec) (hg : reg.getPrimary framework = some g)
    (hvalid : (g.validate config).valid = true)
    (hrender : ∀ f ∈ g.getFiles config, included f config = true →
        f.isTemplate = true →
        (render f.template (buildTemplateContext year date config g)).isSome = true) :
    (generatePackage render (fun _ _ => none) year date reg framework
        config).1.success = true ∧
    (generatePackage render (fun _ _ => none) year date reg framework
        config).1.files =
      ((g.getFiles config).filter (fun f => included f config)).map
        (fun f => f.path) ∧
    ∀ f ∈ g.getFiles config, included f config = true →
      FsOp.writeFile (pathJoin config.outDir f.path)
          (rawContent render (buildTemplateContext year date config g) f)
        ∈ (generatePackage render (fun _ _ => none) year date reg framework
            config).2 := by
  have heq : generatePackage render (fun _ _ => none) year date reg framework config =
      ({ success := true,
         files := ((g.getFiles config).filter (fun f => included f config)).map
           (fun f => f.path),
         warnings := ((g.validate config).issues.filter
           (fun i => i.severity = Severity.warning)).map (fun i => i.message),
         nextSteps := generateNextSteps config },
       [FsOp.ensureDir config.outDir] ++
         ([] ++ ((g.getFiles config).filter (fun f => included f config)).bind
           (fun f =>
             [FsOp.ensureDir (dirname (pathJoin config.outDir f.path)),
              FsOp.writeFile (pathJoin config.outDir f.path)
                (rawContent render (buildTemplateContext year date config g) f)])) ++
         [FsOp.writeJson (pathJoin config.outDir "package.json")
           (generatePackageJson g config)]) := by
    simp only [generatePackage, hg]
    rw [if_neg (by simp [hvalid])]
    rw [genFilesLoop_all_rendered render framework
      (buildTemplateContext year date config g) config config.outDir
      (g.getFiles config) hrender]
    simp
  rw [heq]
  refine ⟨rfl, rfl, ?_⟩
  intro f hf hinc
  simp only [List.mem_append, List.mem_bind, List.nil_append]
  left
  right
  exact ⟨f, List.mem_filter.mpr ⟨hf, by simpa using hinc⟩, by simp⟩

/-- Claim C9 witness: the react generator, a valid configuration, a
render oracle that always succeeds and a formatter that always throws. -/
theorem generatePackage_prettier_failure_not_fatal_witness :
    (generatePackage (fun _ _ => some "content") (fun _ _ => none) 2026 "2026-10-12"
        regBoth .react cfgBase).1.success = true ∧
    (generatePackage (fun _ _ => some "content") (fun _ _ => none) 2026 "2026-10-12"
        regBoth .react cfgBase).1.files =
      ((reactGenerator.getFiles cfgBase).filter (fun f => included f cfgBase)).map
        (fun f => f.path) ∧
    ∀ f ∈ reactGenerator.getFiles cfgBase, included f cfgBase = true →
      FsOp.writeFile (pathJoin cfgBase.outDir f.path)
          (rawContent (fun _ _ => some "content")
            (buildTemplateContext 2026 "2026-10-12" cfgBase reactGenerator) f)
        ∈ (generatePackage (fun _ _ => some "content") (fun _ _ => none) 2026
            "2026-10-12" regBoth .react cfgBase).2 :=
  generatePackage_prettier_failure_not_fatal (fun _ _ => some "content") 2026
    "2026-10-12" regBoth .react cfgBase reactGenerator rfl (by decide)
    (fun _ _ _ _ => rfl)

end Scaffold
